import Mathlib

/-!
Shallow embedding of the preview / coordination layer of the typst-lsp
fork (src/server/ui.rs, src/server/document.rs, src/workspace/world/mod.rs).

External library types (typst `Document`, `Page`, slint images, LSP ranges)
are modelled by the surface the embedded code actually uses: a `Document`
is its ordered list of pages, a `Page` carries its width and height, an
image is an opaque value. `f32` arithmetic is modelled over `ℚ` (the code
only clamps, scales and compares, no rounding-sensitive operations).
-/

/-- A page of a compiled typst document, reduced to the dimensions the UI
code reads (`page.height()`, `page.width()`, `page.size().to_point().y`). -/
structure Page where
  height : ℚ
  width : ℚ
  deriving DecidableEq, Repr

/-- A compiled typst `Document`: its ordered pages. -/
structure Document where
  pages : List Page
  deriving DecidableEq, Repr

/-- An LSP `Url`, opaque to the embedded code. -/
abbrev Url := String

/-- An LSP `Position` (line / character). -/
structure LspPosition where
  line : Nat
  character : Nat
  deriving DecidableEq, Repr

/-- An LSP `Range`; the embedded code only reads `range.start`. -/
structure LspRange where
  start : LspPosition
  deriving DecidableEq, Repr

/-- `NewDocumentMessage` from src/server/ui.rs: the payload sent from the
LSP side to the preview consumer. -/
structure NewDocumentMessage where
  document : Document
  source_uri : Url
  first_change_range : Option LspRange
  deriving DecidableEq, Repr

/-! ## C1: the preview consumer's coalescing loop (Ui::run, fut1)

The loop body is
  `msg = recv(); while let Ok(next) = try_recv() { msg = next }; show_document(msg)`.
We model the channel contents at wake-up as a list (head = first message
`recv` returns) and record the sequence of `show_document` calls the body
makes for that batch. -/

/-- The `while let Ok(next_msg) = to_ui_rx.try_recv() { msg = next_msg }`
drain: starting from the already-received `msg`, keep replacing it with
each further pending message. -/
def drain_pending {α : Type} (msg : α) : List α → α
  | [] => msg
  | next :: rest => drain_pending next rest

/-- One wake of the receive loop on a pending queue: the list of documents
passed to `show_document` while processing that batch. An empty queue means
`recv` is still blocked, so nothing is shown. -/
def ui_wake_shows {α : Type} (queue : List α) : List α :=
  match queue with
  | [] => []
  | msg :: rest => [drain_pending msg rest]

theorem drain_pending_eq_getLast {α : Type} (msg : α) (rest : List α) :
    drain_pending msg rest = (msg :: rest).getLast (by simp) := by
  induction rest generalizing msg with
  | nil => rfl
  | cons next rest ih =>
      rw [drain_pending, ih next]
      exact (List.getLast_cons (by simp)).symm

/-- Claim C1: when the receive loop wakes on a non-empty pending queue of
`NewDocumentMessage`s, the body drains the whole queue and calls
`show_document` exactly once, with the last pending message; superseded
messages are never shown. -/
theorem ui_wake_shows_last {α : Type} (queue : List α) (h : queue ≠ []) :
    ui_wake_shows queue = [queue.getLast h] := by
  match queue with
  | [] => exact absurd rfl h
  | msg :: rest =>
      show [drain_pending msg rest] = _
      rw [drain_pending_eq_getLast]

def pageA : Page := ⟨842, 595⟩

def docA : Document := ⟨[pageA]⟩

def docB : Document := ⟨[pageA, pageA]⟩

def msgA : NewDocumentMessage := ⟨docA, "file:///a.typ", none⟩

def msgB : NewDocumentMessage := ⟨docB, "file:///a.typ", some ⟨⟨3, 0⟩⟩⟩

/-- Witness for C1 at a concrete two-message batch: only the later message
is shown. -/
theorem ui_wake_shows_last_witness :
    ui_wake_shows [msgA, msgB] = [msgB] :=
  (ui_wake_shows_last [msgA, msgB] (by simp)).trans rfl

/-! ## C8: the zoom clamp (Ui::run, Zoom branch; initial state)

`*ui.zoom.lock().unwrap() = zoom.abs().max(0.3).min(3.0);`, with the slot
initialised to `Mutex::new(1.0)`. -/

/-- Initial value of the `zoom` slot (`zoom: Mutex::new(1.0)`). -/
def zoom_init : ℚ := 1

/-- The value stored by the `UiRequest::Zoom(zoom)` branch:
`zoom.abs().max(0.3).min(3.0)`. -/
def zoom_update (z : ℚ) : ℚ := min (max |z| (3/10)) 3

/-- Values the zoom slot can hold: the initial `1.0`, or the result of any
processed `Zoom(z)` request (each request overwrites the slot). -/
inductive ZoomReachable : ℚ → Prop
  | init : ZoomReachable zoom_init
  | step (z prev : ℚ) : ZoomReachable prev → ZoomReachable (zoom_update z)

/-- Claim C8: the stored zoom starts at 1.0; after a `Zoom(z)` request it
equals `max(0.3, min(3.0, |z|))`; every reachable value lies in
`[0.3, 3.0]`. -/
theorem zoom_invariant (q : ℚ) (h : ZoomReachable q) :
    ((3/10 : ℚ) ≤ q ∧ q ≤ 3) ∧ ∀ z : ℚ, zoom_update z = max (3/10) (min 3 |z|) := by
  constructor
  · induction h with
    | init =>
        constructor
        · norm_num [zoom_init]
        · norm_num [zoom_init]
    | step z prev _ =>
        constructor
        · simp only [zoom_update, le_min_iff]
          exact ⟨le_max_right _ _, by norm_num⟩
        · exact min_le_right _ _
  · intro z
    rw [zoom_update, max_comm |z| (3/10), min_max_distrib_right,
      min_eq_left (by norm_num : (3/10 : ℚ) ≤ 3), min_comm]

/-- Witness for C8 at the concrete reachable value `zoom_update 5 = 3`. -/
theorem zoom_invariant_witness :
    ((3/10 : ℚ) ≤ zoom_update 5 ∧ zoom_update 5 ≤ 3) ∧
      ∀ z : ℚ, zoom_update z = max (3/10) (min 3 |z|) :=
  zoom_invariant (zoom_update 5) (ZoomReachable.step 5 zoom_init ZoomReachable.init)

/-! ## C2: run_diagnostics_and_export (src/server/document.rs)

```
let (document, diagnostics) = self.compile_source(uri).await?;
self.update_all_diagnostics(diagnostics).await;
if let Some(document) = document {
    self.export_pdf(uri, document, first_change_range).await?;
} else {
    bail!("failed to generate document after compilation")
}
Ok(())
```
We model the already-completed compile as a `CompileOutcome` and record the
set of published diagnostics together with the function's `anyhow::Result`
return value. -/

/-- An LSP diagnostic, opaque to the coordination code. -/
structure Diagnostic where
  message : String
  deriving DecidableEq, Repr

/-- What `compile_source` hands back: an optional document and the
diagnostics of the compile. -/
structure CompileOutcome where
  document : Option Document
  diagnostics : List Diagnostic
  deriving DecidableEq, Repr

/-- `TypstServer::run_diagnostics_and_export`, given the compile outcome:
returns the diagnostics passed to `update_all_diagnostics` and the
function's `anyhow::Result<()>` value (`export_pdf` itself modelled as
succeeding). -/
def run_diagnostics_and_export (outcome : CompileOutcome) :
    List Diagnostic × Except String Unit :=
  match outcome.document with
  | some _ => (outcome.diagnostics, Except.ok ())
  | none =>
      (outcome.diagnostics,
        Except.error "failed to generate document after compilation")

/-- Counterexample to C2 as stated: a compile with diagnostics but no
document makes `run_diagnostics_and_export` return an error — the
coordination layer does fail, via
`bail!("failed to generate document after compilation")`. -/
theorem run_diagnostics_and_export_fails_without_document :
    (run_diagnostics_and_export ⟨none, [⟨"expected expression"⟩]⟩).2 =
      Except.error "failed to generate document after compilation" := rfl

/-- Claim C2 (amended): for every compile that produces no document,
`run_diagnostics_and_export` still publishes all of that compile's
diagnostics (via `update_all_diagnostics`, which runs before the branch),
but then returns the error
"failed to generate document after compilation" rather than succeeding. -/
theorem run_diagnostics_and_export_publishes_then_errors
    (outcome : CompileOutcome) (h : outcome.document = none) :
    (run_diagnostics_and_export outcome).1 = outcome.diagnostics ∧
      (run_diagnostics_and_export outcome).2 =
        Except.error "failed to generate document after compilation" := by
  rw [run_diagnostics_and_export, h]
  exact ⟨rfl, rfl⟩

/-- Witness for the amended C2 at a concrete failed compile. -/
theorem run_diagnostics_and_export_publishes_then_errors_witness :
    (run_diagnostics_and_export ⟨none, [⟨"unclosed delimiter"⟩]⟩).1 =
        [⟨"unclosed delimiter"⟩] ∧
      (run_diagnostics_and_export ⟨none, [⟨"unclosed delimiter"⟩]⟩).2 =
        Except.error "failed to generate document after compilation" :=
  run_diagnostics_and_export_publishes_then_errors ⟨none, [⟨"unclosed delimiter"⟩]⟩ rfl

/-! ## C3: atomic replacement of the shared document slot (Ui::show_document
and the Render branch of Ui::run)

The writer does `*self.document.lock().unwrap() = new_doc;` — one store of
a whole `Arc<Document>` under the mutex — and each render request reads
`ui.document.lock().unwrap().to_owned()` — one whole `Arc` clone under the
mutex. We model the mutex-protected slot operations as atomic events of an
interleaved trace and collect the snapshot each read observes. -/

/-- An event on the shared `Mutex<Arc<Document>>` slot: a whole-document
store by `show_document`, or a whole-snapshot load by a render request. -/
inductive SlotEvent (α : Type) where
  | write (doc : α)
  | read
  deriving DecidableEq, Repr

/-- Runs an interleaved trace of slot events starting from `init`: returns
the final slot content and the list of snapshots the reads observed, in
order. -/
def run_slot {α : Type} (init : α) : List (SlotEvent α) → α × List α
  | [] => (init, [])
  | SlotEvent.write d :: rest => run_slot d rest
  | SlotEvent.read :: rest =>
      let r := run_slot init rest
      (r.1, init :: r.2)

/-- Claim C3: in every interleaving of whole-document writes and snapshot
reads of the slot, each read observes either the initial document or one
that some write installed whole — never a mixture of two page sets. -/
theorem run_slot_reads_complete {α : Type} (init : α)
    (trace : List (SlotEvent α)) (d : α)
    (h : d ∈ (run_slot init trace).2) :
    d = init ∨ SlotEvent.write d ∈ trace := by
  induction trace generalizing init with
  | nil => exact absurd h (by simp [run_slot])
  | cons ev rest ih =>
      cases ev with
      | write w =>
          rcases ih w h with h1 | h2
          · exact Or.inr (by simp [h1])
          · exact Or.inr (List.mem_cons_of_mem _ h2)
      | read =>
          rcases List.mem_cons.mp h with h1 | h2
          · exact Or.inl h1
          · rcases ih init h2 with h3 | h4
            · exact Or.inl h3
            · exact Or.inr (List.mem_cons_of_mem _ h4)

/-- Witness for C3 on the concrete trace write `docB`, then read: the read
observes `docB` whole. -/
theorem run_slot_reads_complete_witness :
    docB = docA ∨ SlotEvent.write docB ∈ [SlotEvent.write docB, SlotEvent.read] :=
  run_slot_reads_complete docA [SlotEvent.write docB, SlotEvent.read] docB (by decide)

/-! ## C4: the World adapter's source/file operations
(src/workspace/world/mod.rs)

```
fn source(&self, id: FileId) -> FileResult<Source> {
    self.block(self.project.read_source_by_id(id))
        .map_err(|err: FsError| err.report_and_convert(id))
}
fn file(&self, id: FileId) -> FileResult<Bytes> {
    self.block(self.project.read_bytes_by_id(id))
        .map_err(|err: FsError| err.report_and_convert(id))
}
```
`FsError`, `report_and_convert` and the `Project` readers live in
src/workspace/fs and src/workspace/project, which are not part of the
provided sources; they are modelled from the spec below. The filesystem is
a parameter mapping each file identifier to its read result. -/

/-- A typst `FileId`, opaque here. -/
abbrev FileId := String

/-- Modelled from the spec: `FsError`, the workspace filesystem error —
"fails with `NotFound` if the file does not exist, `ReadError` for I/O
faults" (spec section 4.1). -/
inductive FsError where
  | notFound (id : FileId)
  | readError (msg : String)
  deriving DecidableEq, Repr

/-- The error side of typst's `FileResult`: a missing file or another
read/I-O failure. -/
inductive FileError where
  | notFound
  | other (msg : String)
  deriving DecidableEq, Repr

/-- Modelled from the spec: `FsError::report_and_convert`, converting the
workspace filesystem error into the compiler-facing file error (`NotFound`
for a missing file, a read error for I/O faults). -/
def report_and_convert : FsError → FileError
  | FsError.notFound _ => FileError.notFound
  | FsError.readError m => FileError.other m

/-- `ProjectWorld::source`: the project read (`fs`, a parameter standing
for `Project::read_source_by_id`) with its error mapped through
`report_and_convert`. -/
def ProjectWorld.source (fs : FileId → Except FsError String) (id : FileId) :
    Except FileError String :=
  (fs id).mapError report_and_convert

/-- `ProjectWorld::file`: the byte read (`fs`, a parameter standing for
`Project::read_bytes_by_id`) with its error mapped through
`report_and_convert`. -/
def ProjectWorld.file (fs : FileId → Except FsError (List Nat)) (id : FileId) :
    Except FileError (List Nat) :=
  (fs id).mapError report_and_convert

/-- Claim C4: for every identifier whose underlying read fails, `source`
and `file` return the converted error (`NotFound` for a missing file, a
read error for I/O faults) rather than unwinding; for every identifier
whose read succeeds they return the text / bytes. -/
theorem projectWorld_source_file_errors
    (fsSrc : FileId → Except FsError String)
    (fsBytes : FileId → Except FsError (List Nat)) (id : FileId) :
    (∀ f, fsSrc id = Except.error (FsError.notFound f) →
      ProjectWorld.source fsSrc id = Except.error FileError.notFound) ∧
    (∀ m, fsSrc id = Except.error (FsError.readError m) →
      ProjectWorld.source fsSrc id = Except.error (FileError.other m)) ∧
    (∀ t, fsSrc id = Except.ok t → ProjectWorld.source fsSrc id = Except.ok t) ∧
    (∀ e, fsBytes id = Except.error e →
      ProjectWorld.file fsBytes id = Except.error (report_and_convert e)) ∧
    (∀ b, fsBytes id = Except.ok b → ProjectWorld.file fsBytes id = Except.ok b) := by
  refine ⟨fun f hf => ?_, fun m hm => ?_, fun t ht => ?_, fun e he => ?_, fun b hb => ?_⟩
  · rw [ProjectWorld.source, hf]; rfl
  · rw [ProjectWorld.source, hm]; rfl
  · rw [ProjectWorld.source, ht]; rfl
  · rw [ProjectWorld.file, he]; rfl
  · rw [ProjectWorld.file, hb]; rfl

/-- Witness for C4 on a one-file filesystem where "main.typ" exists and
everything else is missing. -/
theorem projectWorld_source_file_errors_witness :
    ProjectWorld.source
        (fun id => if id = "main.typ" then Except.ok "hello" else
          Except.error (FsError.notFound id)) "other.typ" =
      Except.error FileError.notFound ∧
    ProjectWorld.source
        (fun id => if id = "main.typ" then Except.ok "hello" else
          Except.error (FsError.notFound id)) "main.typ" =
      Except.ok "hello" :=
  ⟨(projectWorld_source_file_errors
      (fun id => if id = "main.typ" then Except.ok "hello" else
        Except.error (FsError.notFound id))
      (fun _ => Except.ok []) "other.typ").1 "other.typ" rfl,
   (projectWorld_source_file_errors
      (fun id => if id = "main.typ" then Except.ok "hello" else
        Except.error (FsError.notFound id))
      (fun _ => Except.ok []) "main.typ").2.2.1 "hello" rfl⟩

/-! ## Scroll model (Ui::scroll_in_window), shared by C5 and C10

```
let page_index = position.page.get() - 1;
let page_size = document.pages[page_index].size().to_point().y.to_pt();
let ypos = position.point.y;
...
let image_scale = zoom * (1.6666666 / scale_factor);
let ypos = ypos.to_pt() * image_scale + 5.0
    + page_index * (page_size * image_scale + 10.0);
let current_ypos = main_window.get_list_viewport_y().abs();
let current_visible_height = main_window.get_list_visible_height();
if ypos < current_ypos || ypos > current_ypos + current_visible_height {
    let ypos = ypos - current_visible_height * 0.3;
    main_window.set_list_viewport_y(-ypos);
}
```
The viewport y (`list_viewport_y`) is the state threaded through. -/

/-- A typst layout `Position`: a 1-based page number and the point's y
coordinate on that page. -/
structure TypstPosition where
  page : Nat
  pointY : ℚ
  deriving DecidableEq, Repr

/-- The target offset `ypos` computed by `scroll_in_window` before the
visibility test: the point's y scaled by `image_scale = zoom *
(1.6666666 / scale_factor)`, plus the 5px top margin and the heights (with
10px spacing) of the preceding pages. -/
def scroll_ypos (doc : Document) (zoom scale_factor : ℚ) (pos : TypstPosition) : ℚ :=
  let page_index := pos.page - 1
  let page_size := ((doc.pages.getD page_index ⟨0, 0⟩)).height
  let image_scale := zoom * (16666666/10000000 / scale_factor)
  pos.pointY * image_scale + 5 + (page_index : ℚ) * (page_size * image_scale + 10)

/-- `Ui::scroll_in_window` acting on the viewport y: scroll only if the
target offset is not already visible, placing the target 30% of the
visible height below the viewport top; otherwise leave the viewport
unchanged. -/
def scroll_in_window (doc : Document) (zoom scale_factor : ℚ)
    (pos : TypstPosition) (visible_height viewport_y : ℚ) : ℚ :=
  let ypos := scroll_ypos doc zoom scale_factor pos
  let current_ypos := |viewport_y|
  if ypos < current_ypos ∨ ypos > current_ypos + visible_height then
    -(ypos - visible_height * (3/10))
  else viewport_y

/-- Claim C10: if the target offset is already visible
(`current_ypos ≤ ypos ≤ current_ypos + visible_height`, with
`current_ypos = |viewport_y|`) the viewport is unchanged; otherwise it is
set to `-(ypos - 0.3 * visible_height)`. -/
theorem scroll_in_window_cases (doc : Document) (zoom scale_factor : ℚ)
    (pos : TypstPosition) (visible_height viewport_y : ℚ) :
    (|viewport_y| ≤ scroll_ypos doc zoom scale_factor pos ∧
        scroll_ypos doc zoom scale_factor pos ≤ |viewport_y| + visible_height →
      scroll_in_window doc zoom scale_factor pos visible_height viewport_y =
        viewport_y) ∧
    (scroll_ypos doc zoom scale_factor pos < |viewport_y| ∨
        scroll_ypos doc zoom scale_factor pos > |viewport_y| + visible_height →
      scroll_in_window doc zoom scale_factor pos visible_height viewport_y =
        -(scroll_ypos doc zoom scale_factor pos - visible_height * (3/10))) := by
  constructor
  · intro h
    rw [scroll_in_window, if_neg]
    push_neg
    exact ⟨h.1, h.2⟩
  · intro h
    rw [scroll_in_window, if_pos h]

/-- Witness for C10: with the target at offset 5 and the viewport at 0
with visible height 600, the target is visible and the viewport stays. -/
theorem scroll_in_window_cases_witness :
    scroll_in_window docA 1 1 ⟨1, 0⟩ 600 0 = 0 :=
  (scroll_in_window_cases docA 1 1 ⟨1, 0⟩ 600 0).1 (by
    constructor
    · show |(0 : ℚ)| ≤ scroll_ypos docA 1 1 ⟨1, 0⟩
      rw [scroll_ypos]
      norm_num [docA, pageA]
    · show scroll_ypos docA 1 1 ⟨1, 0⟩ ≤ |(0 : ℚ)| + 600
      rw [scroll_ypos]
      norm_num [docA, pageA])

/-! ## C9: the cursor fallback in Ui::jump_to_first_change

```
let cursor = source
    .line_column_to_byte(range.start.line, range.start.character)
    .unwrap_or_else(|| source.len_bytes() - 1);
if let Some(position) = typst_ide::jump_from_cursor(&document, &source, cursor + 1) { ... }
```
`line_column_to_byte` belongs to the typst `Source` type (external); it is
a parameter mapping (line, column) to an optional byte offset. -/

/-- The cursor computed by `jump_to_first_change`: the mapped byte offset
of the change's start, or `len_bytes - 1` when the mapping fails. -/
def change_cursor (line_column_to_byte : Nat → Nat → Option Nat)
    (len_bytes : Nat) (range : LspRange) : Nat :=
  (line_column_to_byte range.start.line range.start.character).getD (len_bytes - 1)

/-- Claim C9: when the change's start cannot be mapped to a byte offset and
the source is non-empty, the fallback cursor `len_bytes - 1` does not
underflow (adding the 1 back recovers `len_bytes`), and `cursor + 1` as
passed to `jump_from_cursor` is at most `len_bytes`. -/
theorem change_cursor_fallback_safe (line_column_to_byte : Nat → Nat → Option Nat)
    (len_bytes : Nat) (range : LspRange)
    (hmiss : line_column_to_byte range.start.line range.start.character = none)
    (hlen : 1 ≤ len_bytes) :
    change_cursor line_column_to_byte len_bytes range = len_bytes - 1 ∧
      (len_bytes - 1) + 1 = len_bytes ∧
      change_cursor line_column_to_byte len_bytes range + 1 ≤ len_bytes := by
  have hc : change_cursor line_column_to_byte len_bytes range = len_bytes - 1 := by
    rw [change_cursor, hmiss]
    rfl
  have hs : (len_bytes - 1) + 1 = len_bytes := Nat.succ_pred_eq_of_pos hlen
  exact ⟨hc, hs, by rw [hc, hs]⟩

/-- Witness for C9 on a 12-byte source whose mapping always fails. -/
theorem change_cursor_fallback_safe_witness :
    change_cursor (fun _ _ => none) 12 ⟨⟨3, 0⟩⟩ = 11 ∧
      (12 - 1) + 1 = 12 ∧ change_cursor (fun _ _ => none) 12 ⟨⟨3, 0⟩⟩ + 1 ≤ 12 :=
  change_cursor_fallback_safe (fun _ _ => none) 12 ⟨⟨3, 0⟩⟩ rfl (by decide)

/-! ## The lazy image cache (LazyImagesModel), C6 and C7

`images: RefCell<Vec<Option<slint::Image>>>`. `reset_all(new_len)` replaces
the vector with `new_len` copies of `None`; `row_data(row)` populates the
slot on first access by sending one `UiRequest::Render(row)` and receiving
the pixel buffer. A rendered image is opaque; the pixel buffer the render
task answers with is a parameter `render`. -/

/-- An opaque rendered page image (`slint::Image`). -/
abbrev UiImage := Nat

/-- `LazyImagesModel::reset_all(new_len)`: a fresh vector of `new_len`
unpopulated slots. -/
def reset_all (new_len : Nat) : List (Option UiImage) :=
  List.replicate new_len none

/-- `LazyImagesModel::row_data(row)`. Returns the image handed to slint
(`none` when `row` is out of bounds, mirroring `get_mut(row)?`), the cache
after the call, and the list of `Render` requests sent on the ui-request
channel during the call. -/
def row_data (render : Nat → UiImage) (images : List (Option UiImage))
    (row : Nat) : Option UiImage × List (Option UiImage) × List Nat :=
  match images[row]? with
  | none => (none, images, [])
  | some (some img) => (some img, images, [])
  | some none =>
      let img := render row
      (some img, images.set row (some img), [row])

/-- Claim C7: `row_data` memoizes. For an in-bounds row, a second call
right after the first returns the same image and sends no render request;
and the first call sends a request exactly when the slot was unpopulated
(and then exactly one request, for that row). -/
theorem row_data_memoizes (render : Nat → UiImage)
    (images : List (Option UiImage)) (row : Nat) (h : row < images.length) :
    (row_data render (row_data render images row).2.1 row).1 =
        (row_data render images row).1 ∧
      (row_data render (row_data render images row).2.1 row).2.2 = [] ∧
      ((row_data render images row).2.2 =
        if images[row] = none then [row] else []) := by
  cases hslot : images[row] with
  | some img =>
      simp [row_data, List.getElem?_eq_getElem h, hslot]
  | none =>
      have hset : (images.set row (some (render row)))[row]? =
          some (some (render row)) :=
        List.getElem?_set_eq_of_lt _ (by simpa using h)
      simp [row_data, List.getElem?_eq_getElem h, hslot, hset]

/-- Witness for C7 on a two-slot cache with slot 0 unpopulated: the first
access requests a render of page 0, the second access is a silent cache
hit returning the same image. -/
theorem row_data_memoizes_witness :
    (row_data (fun r => r + 100) (row_data (fun r => r + 100) [none, none] 0).2.1 0).1 =
        (row_data (fun r => r + 100) [none, none] 0).1 ∧
      (row_data (fun r => r + 100) (row_data (fun r => r + 100) [none, none] 0).2.1 0).2.2 = [] ∧
      ((row_data (fun r => r + 100) [none, none] 0).2.2 =
        if ([none, none] : List (Option UiImage))[0] = none then [0] else []) :=
  row_data_memoizes (fun r => r + 100) [none, none] 0 (by decide)

/-! ## The Ui state and its transitions (C5, C6)

The pieces of `Ui` the claims touch, plus the viewport y that
`scroll_in_window` writes. `show_document` installs the new document and
uri, resets the image cache to the new page count, and — only when a
change range is present and `typst_ide::jump_from_cursor` finds a
position — scrolls. The Zoom branch of `Ui::run` stores the clamped zoom
and resets the cache to the current document's page count. The two
nested `if let`s of `show_document` / `jump_to_first_change` are written
as one `Option.bind` (position found iff a range was present and
`jump_from_cursor` succeeded on it) followed by an `Option.elim`. -/

/-- The mutable preview state: the shared document slot, source uri, zoom,
the lazy image cache, and the list viewport y position. -/
structure UiState where
  document : Document
  source_uri : Option Url
  zoom : ℚ
  images : List (Option UiImage)
  viewport_y : ℚ
  deriving DecidableEq, Repr

/-- The `UiRequest::Zoom(z)` branch of `Ui::run`: store the clamped zoom,
then `reset_all(number_pages)` on the current document. -/
def ui_zoom_step (s : UiState) (z : ℚ) : UiState :=
  { s with
      zoom := zoom_update z
      images := reset_all s.document.pages.length }

/-- The unconditional part of `Ui::show_document`: install the new
document and source uri, reset the image cache to the new page count. -/
def show_document_install (s : UiState) (msg : NewDocumentMessage) : UiState :=
  { s with
      document := msg.document
      source_uri := some msg.source_uri
      images := reset_all msg.document.pages.length }

/-- The position `show_document` will scroll to, if any: present exactly
when the message carries a first-change range and
`typst_ide::jump_from_cursor` (parameter `jump_from_cursor`), fed
`cursor + 1` for the derived cursor, finds a position in the compiled
document. -/
def first_change_target (first_change_range : Option LspRange)
    (line_column_to_byte : Nat → Nat → Option Nat) (len_bytes : Nat)
    (jump_from_cursor : Nat → Option TypstPosition) : Option TypstPosition :=
  first_change_range.bind fun range =>
    jump_from_cursor (change_cursor line_column_to_byte len_bytes range + 1)

/-- `Ui::show_document` followed by its conditional
`jump_to_first_change`: install the new document, then scroll only if a
first-change position was found. `line_column_to_byte` and `len_bytes`
describe the main source re-read from the workspace; `scale_factor` and
`visible_height` are the window parameters read inside
`scroll_in_window`. -/
def show_document_step (s : UiState) (msg : NewDocumentMessage)
    (line_column_to_byte : Nat → Nat → Option Nat) (len_bytes : Nat)
    (jump_from_cursor : Nat → Option TypstPosition)
    (scale_factor visible_height : ℚ) : UiState :=
  (first_change_target msg.first_change_range line_column_to_byte len_bytes
      jump_from_cursor).elim
    (show_document_install s msg)
    (fun pos =>
      { show_document_install s msg with
          viewport_y := scroll_in_window
            (show_document_install s msg).document
            (show_document_install s msg).zoom scale_factor pos
            visible_height (show_document_install s msg).viewport_y })

/-- Claim C5: showing a document scrolls nowhere when there is no
first-change range, or when the derived cursor maps to no position
(`jump_from_cursor` returns `none`): the viewport y is exactly unchanged,
in particular never reset to the top. -/
theorem show_document_no_match_keeps_viewport (s : UiState)
    (msg : NewDocumentMessage)
    (line_column_to_byte : Nat → Nat → Option Nat) (len_bytes : Nat)
    (jump_from_cursor : Nat → Option TypstPosition)
    (scale_factor visible_height : ℚ)
    (h : msg.first_change_range = none ∨
      ∀ range, msg.first_change_range = some range →
        jump_from_cursor
          (change_cursor line_column_to_byte len_bytes range + 1) = none) :
    (show_document_step s msg line_column_to_byte len_bytes jump_from_cursor
        scale_factor visible_height).viewport_y = s.viewport_y := by
  have ht : first_change_target msg.first_change_range line_column_to_byte
      len_bytes jump_from_cursor = none := by
    rcases h with hnone | hmiss
    · rw [first_change_target, hnone]
      rfl
    · cases hr : msg.first_change_range with
      | none =>
          rw [first_change_target]
          rfl
      | some range =>
          rw [first_change_target]
          exact hmiss range hr
  rw [show_document_step, ht]
  rfl

/-- Witness for C5: showing `msgB` (whose change range maps to no
position) leaves a viewport at -250 exactly where it was. -/
theorem show_document_no_match_keeps_viewport_witness :
    (show_document_step ⟨docA, none, 1, reset_all 1, -250⟩ msgB
        (fun _ _ => none) 12 (fun _ => none) 1 600).viewport_y = -250 :=
  show_document_no_match_keeps_viewport ⟨docA, none, 1, reset_all 1, -250⟩ msgB
    (fun _ _ => none) 12 (fun _ => none) 1 600
    (Or.inr (fun _ _ => rfl))

/-- Claim C6: `reset_all n` yields exactly `n` slots, all unpopulated; the
Zoom branch leaves the cache in that state for the current page count, and
`show_document` leaves it in that state for the new document's page
count — so every page image is recomputed on its next access. -/
theorem reset_all_invalidates (n : Nat) (s : UiState) (z : ℚ)
    (msg : NewDocumentMessage)
    (line_column_to_byte : Nat → Nat → Option Nat) (len_bytes : Nat)
    (jump_from_cursor : Nat → Option TypstPosition)
    (scale_factor visible_height : ℚ) :
    ((reset_all n).length = n ∧
      ∀ slot ∈ reset_all n, slot = none) ∧
    (ui_zoom_step s z).images = reset_all s.document.pages.length ∧
    (show_document_step s msg line_column_to_byte len_bytes jump_from_cursor
        scale_factor visible_height).images =
      reset_all msg.document.pages.length := by
  refine ⟨⟨List.length_replicate n none, fun slot hs => List.eq_of_mem_replicate hs⟩,
    rfl, ?_⟩
  cases hj : first_change_target msg.first_change_range line_column_to_byte
      len_bytes jump_from_cursor with
  | none =>
      rw [show_document_step, hj]
      rfl
  | some pos =>
      rw [show_document_step, hj]
      rfl

/-- Witness for C6 at `n = 3` and concrete zoom / show-document steps. -/
theorem reset_all_invalidates_witness :
    (((reset_all 3).length = 3 ∧ ∀ slot ∈ reset_all 3, slot = none) ∧
      (ui_zoom_step ⟨docB, none, 1, [some 7], 0⟩ 2).images =
        reset_all docB.pages.length ∧
      (show_document_step ⟨docA, none, 1, [some 7], 0⟩ msgA
          (fun _ _ => none) 12 (fun _ => none) 1 600).images =
        reset_all msgA.document.pages.length) :=
  reset_all_invalidates 3 ⟨docB, none, 1, [some 7], 0⟩ 2 msgA
    (fun _ _ => none) 12 (fun _ => none) 1 600
